import Mathlib

/-!
Verification of the Playwright test-framework core against its specification.

The Python sources are shallowly embedded: environment reads become explicit
`Option String` parameters, the `logging` registry becomes a finite map from
names to sink lists, the filesystem becomes an explicit record, and fallible
driver calls become `Except` values. Each definition is translated from the
corresponding source function (file and symbol noted in its doc comment).
-/

namespace Spec2Proof

/-! ## Configuration resolver (src/config.py) -/

/-- ASCII whitespace stripped by Python `str.strip()` / `int()`. -/
def pyWhitespace (c : Char) : Bool :=
  c = ' ' || c = '\t' || c = '\n' || c = '\x0d' || c = '\x0b' || c = '\x0c'

/-- Accumulate a base-10 digit run as Python `int()` does: underscores are
allowed only between digits (`lastDigit` tracks whether the previous character
was a digit), and the run must end on a digit.  Models the ASCII-digit
behaviour of `int()`. -/
def pyDigits : List Char → Nat → Bool → Option Nat
  | [], acc, lastDigit => if lastDigit then some acc else none
  | c :: rest, acc, lastDigit =>
    if c.isDigit then pyDigits rest (acc * 10 + (c.toNat - 48)) true
    else if c = '_' && lastDigit then pyDigits rest acc false
    else none

/-- Python `int(s)` for base 10: strip surrounding whitespace, optional single
sign, then a digit run; returns `none` where `int()` raises `ValueError`. -/
def pyInt (s : String) : Option Int :=
  let trimmed := ((s.toList.dropWhile pyWhitespace).reverse.dropWhile pyWhitespace).reverse
  match trimmed with
  | '+' :: rest => (pyDigits rest 0 false).map Int.ofNat
  | '-' :: rest => (pyDigits rest 0 false).map (fun n => -(n : Int))
  | rest => (pyDigits rest 0 false).map Int.ofNat

/-- Python `str.lower()` restricted to ASCII, which covers every token the
configuration compares against. -/
def pyLower (s : String) : String :=
  String.mk (s.toList.map Char.toLower)

namespace Config

/-- src/config.py `Config.TIMEOUT`: `int(os.getenv('TIMEOUT', '30000'))`
inside `try/except ValueError`, falling back to `30000`.  The environment
value is `none` when the variable is unset. -/
def TIMEOUT (env : Option String) : Int :=
  match pyInt (env.getD "30000") with
  | some n => n
  | none => 30000

/-- The tuple `('true', '1', 'yes', 'on')` from src/config.py line 22. -/
def truthyTokens : List String := ["true", "1", "yes", "on"]

/-- src/config.py `Config.HEADLESS`:
`os.getenv('HEADLESS', 'true').lower() in ('true', '1', 'yes', 'on')`. -/
def HEADLESS (env : Option String) : Bool :=
  truthyTokens.contains (pyLower (env.getD "true"))

/-- src/config.py `Config.TEST_USER` default. -/
def TEST_USER_default : String := "standard_user"

/-- src/config.py `Config.TEST_PASSWORD` default. -/
def TEST_PASSWORD_default : String := "secret_sauce"

/-- src/config.py `Config.DEVICES`: device-profile table, name to nullable
override name. -/
def DEVICES : List (String × Option String) :=
  [("Desktop Chrome", none),
   ("iPhone 12", some "iPhone 12"),
   ("iPad", some "iPad"),
   ("Pixel 5", some "Pixel 5")]

end Config

/-! ## Structured logger (src/utils/logger.py) -/

/-- A logger sink (handler): file handler with its path, or colored console
handler. -/
inductive Sink where
  | file (path : String)
  | console
deriving DecidableEq, Repr

/-- Sink-relevant part of the configuration snapshot. -/
structure LoggerCfg where
  logToFile : Bool
  logToConsole : Bool
  logFilePath : String

/-- The process-wide `logging` registry: each name maps to its handler list. -/
def Registry : Type := String → List Sink

namespace TestLogger

/-- src/utils/logger.py `TestLogger.setup_logger`: clear the named logger's
handlers, then attach a file handler iff `LOG_TO_FILE` and a console handler
iff `LOG_TO_CONSOLE`. -/
def setup_logger (cfg : LoggerCfg) (reg : Registry) (name : String) : Registry :=
  fun n =>
    if n = name then
      (if cfg.logToFile then [Sink.file cfg.logFilePath] else [])
        ++ (if cfg.logToConsole then [Sink.console] else [])
    else reg n

/-- src/utils/logger.py `TestLogger.get_test_logger`: logger name is
`test.<name>` when a test name is given, else `test`. -/
def testLoggerName : Option String → String
  | some t => "test." ++ t
  | none => "test"

/-- src/utils/logger.py `TestLogger.get_test_logger`: constructing
`TestLogger(logger_name)` runs `setup_logger` on that name and returns the
registry state afterwards. -/
def get_test_logger (cfg : LoggerCfg) (reg : Registry) (t : Option String) : Registry :=
  setup_logger cfg reg (testLoggerName t)

end TestLogger

/-! ## Filesystem model and clear_log_file (src/utils/logger.py) -/

/-- Explicit filesystem state: file contents by path, and which directories
exist. -/
structure FS where
  files : String → Option String
  dirs : String → Bool

/-- Result of a `clear_log_file` call: the filesystem afterwards, whether the
call raised, and whether the fallback console warning was printed. -/
structure ClearOutcome where
  fs : FS
  raised : Bool
  warned : Bool

namespace TestLogger

/-- src/utils/logger.py `TestLogger.clear_log_file`: inside `try/except`,
if `os.path.exists(path)` then open the file for writing and write `""`;
any exception (modelled by the injected `openFault`) is caught and turned
into a console warning.  When the file does not exist nothing happens. -/
def clear_log_file (path : String) (fs : FS) (openFault : Bool) : ClearOutcome :=
  if (fs.files path).isSome then
    if openFault then ⟨fs, false, true⟩
    else ⟨⟨fun p => if p = path then some "" else fs.files p, fs.dirs⟩, false, false⟩
  else ⟨fs, false, false⟩

end TestLogger

/-! ## Test lifecycle hooks (src/conftest.py) -/

/-- Test outcome statuses assigned by `log_test_execution`. -/
inductive Status where
  | PASSED
  | FAILED
  | SKIPPED
  | ERROR
  | UNKNOWN
deriving DecidableEq, Repr

/-- The pytest call-phase report captured by `pytest_runtest_makereport` and
stored as `request.node.rep_call`. -/
structure Rep where
  passed : Bool
  failed : Bool
  skipped : Bool
deriving DecidableEq, Repr

/-- How the test body's call phase ended. -/
inductive CallOutcome where
  | ok
  | raised
  | skippedCall
deriving DecidableEq, Repr

/-- src/conftest.py `pytest_runtest_makereport`: pytest's call-phase report
for a body that returned normally, raised, or was skipped. -/
def makeReport : CallOutcome → Rep
  | CallOutcome.ok => ⟨true, false, false⟩
  | CallOutcome.raised => ⟨false, true, false⟩
  | CallOutcome.skippedCall => ⟨false, false, true⟩

/-- src/conftest.py `log_test_execution` outcome branch: `rep_call.passed`,
then `.failed`, then `.skipped`, else ERROR; UNKNOWN when no report was
captured. -/
def classifyOutcome : Option Rep → Status
  | some r =>
    if r.passed then Status.PASSED
    else if r.failed then Status.FAILED
    else if r.skipped then Status.SKIPPED
    else Status.ERROR
  | none => Status.UNKNOWN

/-- Log events emitted by the lifecycle fixture. -/
inductive LogEvent where
  | testStart (name : String)
  | testEnd (name : String) (status : Status) (duration : Int)
deriving DecidableEq, Repr

/-- src/conftest.py `log_test_execution`: log the start record, yield to the
test body (whose call-phase result arrives as `rep`), then unconditionally
compute the duration, classify, and log the end record.  Timestamps are the
wall-clock reads before and after the body. -/
def log_test_execution (name : String) (rep : Option Rep)
    (startTime endTime : Int) : List LogEvent :=
  [LogEvent.testStart name,
   LogEvent.testEnd name (classifyOutcome rep) (endTime - startTime)]

/-! ## Context acquisition (src/conftest.py `context` fixture) -/

/-- Viewport dimensions. -/
structure Viewport where
  width : Nat
  height : Nat
deriving DecidableEq, Repr

/-- A playwright device-registry entry: the emulation overrides merged into
the context options. -/
structure DeviceSettings where
  viewport : Viewport
  userAgent : String
deriving DecidableEq, Repr

/-- Options passed to `browser.new_context`. -/
structure ContextOptions where
  viewport : Viewport
  userAgent : Option String
  ignoreHTTPSErrors : Bool
  recordVideoDir : Option String
deriving DecidableEq, Repr

/-- src/conftest.py `context` fixture: start from the defaults
(viewport 1920 by 1080, ignore HTTPS errors, video dir iff `RECORD_VIDEO`);
when `config.DEVICE` is truthy, present in `config.DEVICES`, and maps to a
truthy override name that exists in `playwright.devices`, update the options
with that device's settings. -/
def contextOptions (device : String) (playwrightDevices : String → Option DeviceSettings)
    (recordVideo : Bool) : ContextOptions :=
  let base : ContextOptions :=
    ⟨⟨1920, 1080⟩, none, true, if recordVideo then some "test-results/videos/" else none⟩
  if device.isEmpty then base
  else
    match Config.DEVICES.lookup device with
    | some (some name) =>
      if name.isEmpty then base
      else
        match playwrightDevices name with
        | some dset => ⟨dset.viewport, some dset.userAgent, base.ignoreHTTPSErrors, base.recordVideoDir⟩
        | none => base
    | _ => base

/-! ## Page objects (src/pages/base_page.py, src/pages/login_page.py) -/

namespace BasePage

/-- src/pages/base_page.py `BasePage.is_element_visible`: call the driver's
`locator(selector).is_visible()` (whose outcome, value or exception, is
`driverResult`); on any exception log at debug level and return `False`. -/
def is_element_visible (driverResult : Except String Bool) : Bool :=
  match driverResult with
  | Except.ok v => v
  | Except.error _ => false

end BasePage

namespace LoginPage

/-- Python `x or default` on an optional string argument: `None` and the
empty string are both falsy and select the default. -/
def pyOrString (arg : Option String) (dflt : String) : String :=
  match arg with
  | none => dflt
  | some s => if s.isEmpty then dflt else s

/-- The credentials a `login` call types into the form. -/
structure Credentials where
  username : String
  password : String
deriving DecidableEq, Repr

/-- src/pages/login_page.py `LoginPage.login`:
`username = email or self.config.TEST_USER`,
`password = password or self.config.TEST_PASSWORD`, then fill both fields
and click the login button. -/
def login (cfgUser cfgPassword : String) (email password : Option String) : Credentials :=
  ⟨pyOrString email cfgUser, pyOrString password cfgPassword⟩

/-- src/pages/login_page.py `LoginPage.get_error_message`: if
`is_element_visible(req_error)` then return `get_text(req_error)` (which may
raise, hence `Except`), else return `""`.  `visProbe` is the driver outcome
of the visibility call, `textRead` of the text read. -/
def get_error_message (visProbe : Except String Bool)
    (textRead : Except String String) : Except String String :=
  if BasePage.is_element_visible visProbe then textRead else Except.ok ""

end LoginPage

/-! ## CLI runner (src/test_runner.py) -/

namespace TestRunner

/-- src/test_runner.py `TestRunner.run_tests`: `subprocess.run(command, env)`
then `success = result.returncode == 0`; the boolean is what `main` sees. -/
def run_tests_success (childReturncode : Int) : Bool :=
  childReturncode == 0

/-- src/test_runner.py `main` exit for the test-run path:
`sys.exit(0 if success else 1)`. -/
def mainExit (childReturncode : Int) : Int :=
  if run_tests_success childReturncode then 0 else 1

/-- src/test_runner.py `main` exit for the `--install` path: `sys.exit(1)`
when `install_dependencies` fails, plain return (exit code 0) when it
succeeds. -/
def mainInstallExit (installOk : Bool) : Int :=
  if installOk then 0 else 1

end TestRunner

/-! ## Concrete inputs used by witnesses and counterexamples -/

/-- A playwright device registry carrying one profile, for concrete checks. -/
def pdIphone : String → Option DeviceSettings :=
  fun n => if n = "iPhone 12" then some ⟨⟨390, 844⟩, "iphone-ua"⟩ else none

/-- A filesystem with no files and no directories. -/
def fsEmpty : FS := ⟨fun _ => none, fun _ => false⟩

/-- A filesystem where the default log file exists with stale content. -/
def fsWithLog : FS :=
  ⟨fun p => if p = "logs/test_execution.log" then some "old content" else none,
   fun p => p = "logs"⟩

/-! ## Theorems -/

/-- C1: resolving `Config.TIMEOUT` never raises; an environment value that
fails integer parsing yields the fixed default 30000, and a value that parses
yields exactly the parsed integer. -/
theorem timeout_resolution (s : String) :
    (pyInt s = none → Config.TIMEOUT (some s) = 30000)
    ∧ (∀ n : Int, pyInt s = some n → Config.TIMEOUT (some s) = n) := by
  unfold Config.TIMEOUT
  simp only [Option.getD_some]
  cases h : pyInt s with
  | none => simp [h]
  | some n => simp [h]

/-- Witness for C1 at the concrete non-numeric value "abc". -/
theorem timeout_resolution_witness :
    pyInt "abc" = none ∧ Config.TIMEOUT (some "abc") = 30000 :=
  ⟨by decide, (timeout_resolution "abc").1 (by decide)⟩

/-- C2 counterexample: "YES" is not in the claimed set
{"true","TRUE","1","yes","on"}, yet headless resolution yields true, because
the code lowercases before the membership test. -/
theorem headless_claim_counterexample :
    Config.HEADLESS (some "YES") = true
    ∧ ("YES" : String) ∉ (["true", "TRUE", "1", "yes", "on"] : List String) :=
  ⟨by decide, by decide⟩

/-- C2 amended: headless resolution yields true exactly when the lowercased
input is one of the truthy tokens "true", "1", "yes", "on"; every other
string yields false. -/
theorem headless_resolution (s : String) :
    Config.HEADLESS (some s) = true ↔ pyLower s ∈ Config.truthyTokens := by
  simp [Config.HEADLESS]

/-- C3: obtaining a configured logger a second time with the same name leaves
the registry, and in particular the named logger's sink count, unchanged. -/
theorem get_test_logger_idempotent (cfg : LoggerCfg) (reg : Registry) (t : Option String) :
    TestLogger.get_test_logger cfg (TestLogger.get_test_logger cfg reg t) t
      = TestLogger.get_test_logger cfg reg t
    ∧ (TestLogger.get_test_logger cfg (TestLogger.get_test_logger cfg reg t) t
        (TestLogger.testLoggerName t)).length
      = (TestLogger.get_test_logger cfg reg t (TestLogger.testLoggerName t)).length := by
  have h : TestLogger.get_test_logger cfg (TestLogger.get_test_logger cfg reg t) t
      = TestLogger.get_test_logger cfg reg t := by
    funext n
    unfold TestLogger.get_test_logger TestLogger.setup_logger
    by_cases hn : n = TestLogger.testLoggerName t <;> simp [hn]
  exact ⟨h, by rw [h]⟩

/-- C4: a test whose body raises is classified FAILED with duration at least
zero, and the end-of-test log record is emitted; the end record is emitted for
every captured outcome, and a missing report classifies as UNKNOWN. -/
theorem raising_test_classified_failed (name : String) (startTime endTime : Int)
    (h : startTime ≤ endTime) :
    classifyOutcome (some (makeReport CallOutcome.raised)) = Status.FAILED
    ∧ 0 ≤ endTime - startTime
    ∧ LogEvent.testEnd name Status.FAILED (endTime - startTime)
        ∈ log_test_execution name (some (makeReport CallOutcome.raised)) startTime endTime
    ∧ (∀ rep : Option Rep,
        LogEvent.testEnd name (classifyOutcome rep) (endTime - startTime)
          ∈ log_test_execution name rep startTime endTime)
    ∧ classifyOutcome none = Status.UNKNOWN := by
  refine ⟨rfl, by omega, ?_, ?_, rfl⟩
  · simp [log_test_execution, classifyOutcome, makeReport]
  · intro rep
    simp [log_test_execution]

/-- Witness for C4 at a concrete test name and timestamps 0 and 5. -/
theorem raising_test_classified_failed_witness :
    (0 : Int) ≤ 5
    ∧ (classifyOutcome (some (makeReport CallOutcome.raised)) = Status.FAILED
        ∧ 0 ≤ (5 : Int) - 0
        ∧ LogEvent.testEnd "test_login" Status.FAILED ((5 : Int) - 0)
            ∈ log_test_execution "test_login" (some (makeReport CallOutcome.raised)) 0 5
        ∧ (∀ rep : Option Rep,
            LogEvent.testEnd "test_login" (classifyOutcome rep) ((5 : Int) - 0)
              ∈ log_test_execution "test_login" rep 0 5)
        ∧ classifyOutcome none = Status.UNKNOWN) :=
  ⟨by decide, raising_test_classified_failed "test_login" 0 5 (by decide)⟩

/-- C5: when the resolved device profile is truthy and maps to a truthy
override name present in the playwright device registry, the context options
carry that device's viewport and user agent; the "Desktop Chrome" profile
(null override) leaves the explicit 1920 by 1080 default. -/
theorem context_device_viewport (pd : String → Option DeviceSettings) (recordVideo : Bool)
    (device name : String) (dset : DeviceSettings)
    (hdev : device.isEmpty = false)
    (hlook : Config.DEVICES.lookup device = some (some name))
    (hname : name.isEmpty = false)
    (hpd : pd name = some dset) :
    (contextOptions device pd recordVideo).viewport = dset.viewport
    ∧ (contextOptions device pd recordVideo).userAgent = some dset.userAgent
    ∧ (contextOptions "Desktop Chrome" pd recordVideo).viewport = ⟨1920, 1080⟩ := by
  unfold contextOptions
  rw [hlook]
  simp [hdev, hname, hpd, Config.DEVICES, List.lookup]

/-- Witness for C5: the "iPhone 12" profile with a one-entry registry. -/
theorem context_device_viewport_witness :
    Config.DEVICES.lookup "iPhone 12" = some (some "iPhone 12")
    ∧ ((contextOptions "iPhone 12" pdIphone false).viewport
          = (⟨⟨390, 844⟩, "iphone-ua"⟩ : DeviceSettings).viewport
        ∧ (contextOptions "iPhone 12" pdIphone false).userAgent
          = some (⟨⟨390, 844⟩, "iphone-ua"⟩ : DeviceSettings).userAgent
        ∧ (contextOptions "Desktop Chrome" pdIphone false).viewport = ⟨1920, 1080⟩) :=
  ⟨by decide,
   context_device_viewport pdIphone false "iPhone 12" "iPhone 12" ⟨⟨390, 844⟩, "iphone-ua"⟩
     (by decide) (by decide) (by decide) (by decide)⟩

/-- C6 counterexample: calling `clear_log_file` on a filesystem where the log
file and its directory do not exist leaves the directory absent — the
function does not create directories (it is a silent no-op). -/
theorem clear_log_file_counterexample :
    fsEmpty.files "logs/test_execution.log" = none
    ∧ (TestLogger.clear_log_file "logs/test_execution.log" fsEmpty false).fs.dirs "logs" = false
    ∧ (TestLogger.clear_log_file "logs/test_execution.log" fsEmpty false).raised = false :=
  ⟨rfl, rfl, rfl⟩

/-- C6 amended: `clear_log_file` never raises and never creates directories;
when the file does not exist it is a silent no-op, when it exists and the
write succeeds the file is truncated, and when the write fails the call
degrades to a console warning with the filesystem unchanged. -/
theorem clear_log_file_amended (path : String) (fs : FS) (fault : Bool) :
    (TestLogger.clear_log_file path fs fault).raised = false
    ∧ (TestLogger.clear_log_file path fs fault).fs.dirs = fs.dirs
    ∧ ((fs.files path).isSome = false →
        TestLogger.clear_log_file path fs fault = ⟨fs, false, false⟩)
    ∧ ((fs.files path).isSome = true → fault = false →
        (TestLogger.clear_log_file path fs fault).fs.files path = some "")
    ∧ ((fs.files path).isSome = true → fault = true →
        TestLogger.clear_log_file path fs fault = ⟨fs, false, true⟩) := by
  unfold TestLogger.clear_log_file
  by_cases hex : (fs.files path).isSome = true
  · by_cases hf : fault = true
    · simp [hex, hf]
    · have hf2 : fault = false := by simpa using hf
      simp [hex, hf2]
  · have hex2 : (fs.files path).isSome = false := by simpa using hex
    simp [hex2]

/-- Witness for C6 at the default log path on a filesystem holding stale
content: the call truncates the file. -/
theorem clear_log_file_amended_witness :
    (fsWithLog.files "logs/test_execution.log").isSome = true
    ∧ (TestLogger.clear_log_file "logs/test_execution.log" fsWithLog false).fs.files
        "logs/test_execution.log" = some "" :=
  ⟨by decide,
   (clear_log_file_amended "logs/test_execution.log" fsWithLog false).2.2.2.1
     (by decide) rfl⟩

/-- C7 counterexample: a child test process exiting with code 2 makes the
runner exit with 1, not with the child's own code 2. -/
theorem exit_code_counterexample :
    TestRunner.mainExit 2 = 1 ∧ (1 : Int) ≠ 2 :=
  ⟨by decide, by decide⟩

/-- C7 amended: the runner exits 0 exactly when the child test process exits
0 and exits 1 for every nonzero child code (the specific code is not
propagated); a dependency-install failure also exits 1. -/
theorem exit_code_amended (c : Int) :
    (c = 0 → TestRunner.mainExit c = 0)
    ∧ (c ≠ 0 → TestRunner.mainExit c = 1)
    ∧ TestRunner.mainInstallExit false = 1
    ∧ TestRunner.mainInstallExit true = 0 := by
  refine ⟨?_, ?_, rfl, rfl⟩
  · intro h
    simp [TestRunner.mainExit, TestRunner.run_tests_success, h]
  · intro h
    simp [TestRunner.mainExit, TestRunner.run_tests_success, h]

/-- Witness for C7 amended at the concrete nonzero child code 7. -/
theorem exit_code_amended_witness :
    (7 : Int) ≠ 0 ∧ TestRunner.mainExit 7 = 1 :=
  ⟨by decide, (exit_code_amended 7).2.1 (by decide)⟩

/-- C8: the visibility check is total — a driver exception is swallowed and
reported as false, and a driver answer is passed through unchanged. -/
theorem is_element_visible_total :
    (∀ e : String, BasePage.is_element_visible (Except.error e) = false)
    ∧ (∀ v : Bool, BasePage.is_element_visible (Except.ok v) = v) :=
  ⟨fun _ => rfl, fun _ => rfl⟩

/-- C9: `login` substitutes the configured default credentials for omitted
(`none`) and for empty-string arguments alike, so when the configured
defaults are nonempty the submitted username and password are never empty. -/
theorem login_credential_fallback (cfgUser cfgPassword : String) (e p : Option String) :
    (LoginPage.login cfgUser cfgPassword none p).username = cfgUser
    ∧ (LoginPage.login cfgUser cfgPassword (some "") p).username = cfgUser
    ∧ (LoginPage.login cfgUser cfgPassword e none).password = cfgPassword
    ∧ (LoginPage.login cfgUser cfgPassword e (some "")).password = cfgPassword
    ∧ (cfgUser.isEmpty = false → ∀ e2 p2 : Option String,
        ((LoginPage.login cfgUser cfgPassword e2 p2).username).isEmpty = false)
    ∧ (cfgPassword.isEmpty = false → ∀ e2 p2 : Option String,
        ((LoginPage.login cfgUser cfgPassword e2 p2).password).isEmpty = false) := by
  refine ⟨rfl, rfl, rfl, rfl, ?_, ?_⟩
  · intro h e2 _
    cases e2 with
    | none => exact h
    | some s =>
      by_cases hs : s.isEmpty = true
      · simp [LoginPage.login, LoginPage.pyOrString, hs, h]
      · simp [LoginPage.login, LoginPage.pyOrString, hs]
  · intro h _ p2
    cases p2 with
    | none => exact h
    | some s =>
      by_cases hs : s.isEmpty = true
      · simp [LoginPage.login, LoginPage.pyOrString, hs, h]
      · simp [LoginPage.login, LoginPage.pyOrString, hs]

/-- Witness for C9 at the configured defaults and intentionally empty
arguments. -/
theorem login_credential_fallback_witness :
    Config.TEST_USER_default.isEmpty = false
    ∧ ((LoginPage.login Config.TEST_USER_default Config.TEST_PASSWORD_default
          (some "") (some "")).username).isEmpty = false :=
  ⟨by decide,
   ((login_credential_fallback Config.TEST_USER_default Config.TEST_PASSWORD_default
       (some "") (some "")).2.2.2.2.1 (by decide)) (some "") (some "")⟩

/-- C10: `get_error_message` never raises when the error element is invisible
or the visibility probe errors — it returns the empty string — and it
attempts the (fallible) text read only when the element is visible. -/
theorem get_error_message_total :
    (∀ e : String, ∀ t : Except String String,
      LoginPage.get_error_message (Except.error e) t = Except.ok "")
    ∧ (∀ t : Except String String,
        LoginPage.get_error_message (Except.ok false) t = Except.ok "")
    ∧ (∀ t : Except String String,
        LoginPage.get_error_message (Except.ok true) t = t) :=
  ⟨fun _ _ => rfl, fun _ => rfl, fun _ => rfl⟩

end Spec2Proof
